import Mathlib

/-!
Verification of the retry/error-classification core of the github-edit repository.

The embedding below translates, function by function, the retry executor
(`src/github/client.rs`, `retry_with_backoff`), the raw-HTTP response
classification shared by the milestone/label operations
(`src/github/client_repository.rs`), the GraphQL mutation-response handling
(`src/github/client_issue.rs`, `src/github/client_project.rs`), and the
dispatch structure of the public client operations.  Asynchronous effects are
made explicit: the fallible operation closure becomes a function from the
invocation index (the value of the `attempt` counter at the moment of the
call) to its outcome, and the executor returns, next to its result, the list
of observable events (invocations and backoff sleeps) in the order the loop
produces them.
-/

namespace GithubEdit

/-- The error taxonomy `ApiRetryableError`.  Modelled from the spec: the file
`src/github/error.rs` is declared in `src/github/mod.rs` but is not among the
available sources; the spec's data model section gives exactly these three
variants, with `NonRetryable` and `Retryable` carrying a message and
`RateLimit` carrying nothing, and every use site in the available sources
(`ApiRetryableError::NonRetryable(String)`, `ApiRetryableError::RateLimit`,
`ApiRetryableError::Retryable(String)`) agrees with this shape. -/
inductive ApiRetryableError where
  | NonRetryable (msg : String)
  | RateLimit
  | Retryable (msg : String)
deriving DecidableEq, Repr

/-- Modelled from the spec: the `Display` rendering of `ApiRetryableError`
(used by the `{}` format placeholders of `retry_with_backoff`) lives in the
missing `src/github/error.rs`.  The spec's terminal-message shape
(`operation <name> failed: <msg>` for a non-retryable failure) pins down that
an error renders as a string carrying its message; the embedding takes the
message itself, and the empty rendering for the payload-free `RateLimit`. -/
def displayError : ApiRetryableError → String
  | .NonRetryable msg => msg
  | .RateLimit => "rate limit exceeded"
  | .Retryable msg => msg

/-- An error class the executor retries: `RateLimit` and `Retryable`, but not
`NonRetryable` (the three-way `match` at client.rs lines 65-90). -/
def ApiRetryableError.isTransient : ApiRetryableError → Bool
  | .NonRetryable _ => false
  | .RateLimit => true
  | .Retryable _ => true

/-- Default maximum number of retry attempts (client.rs line 9,
`DEFAULT_MAX_RETRY_COUNT: u32 = 15`). -/
def DEFAULT_MAX_RETRY_COUNT : Nat := 15

/-- An observable event of one run of the retry executor: an invocation of the
operation closure (with the attempt counter at the call and the outcome the
closure returned), or a backoff sleep of the given number of milliseconds. -/
inductive RetryEvent (T : Type) where
  | invoke (attempt : Nat) (outcome : Except ApiRetryableError T)
  | sleep (millis : Nat)
deriving Repr

/-- The outcome of a run of the retry executor: the value returned to the
caller (success, or the terminal error message built by `anyhow!`), together
with the ordered trace of invocations and sleeps the loop performed. -/
structure RetryRun (T : Type) where
  result : Except String T
  trace : List (RetryEvent T)
deriving Repr

/-- The loop of `retry_with_backoff` (client.rs lines 46-112), entered with
attempt counter `attempt`.  Each iteration invokes the closure; `Ok` returns
at once; `Err(NonRetryable(_))` returns the terminal message
`Operation <name> failed: <e>` at once; otherwise (`RateLimit` or
`Retryable`), if `attempt >= max_retries` the loop returns the terminal
message `Operation <name> failed after <attempt+1> attempts: <e>`, else it
sleeps `100 * 2^attempt` milliseconds (`Duration::from_millis(100 * (1 <<
attempt))`; the u64 computation equals this natural number whenever it does
not overflow, overflow being a Rust program error outside the embedding),
increments `attempt` and continues.  The closure is a function of the
invocation index, so one run never re-reads an earlier attempt's outcome. -/
def retryLoop {T : Type} (operation_name : String)
    (execute_operation : Nat → Except ApiRetryableError T)
    (max_retries attempt : Nat) : RetryRun T :=
  match execute_operation attempt with
  | .ok result => { result := .ok result, trace := [.invoke attempt (.ok result)] }
  | .error e =>
    match e with
    | .NonRetryable _ =>
      { result := .error ("Operation " ++ operation_name ++ " failed: " ++ displayError e),
        trace := [.invoke attempt (.error e)] }
    | _ =>
      if h : attempt ≥ max_retries then
        { result := .error ("Operation " ++ operation_name ++ " failed after " ++
            toString (attempt + 1) ++ " attempts: " ++ displayError e),
          trace := [.invoke attempt (.error e)] }
      else
        let delay := 100 * 2 ^ attempt
        let rest := retryLoop operation_name execute_operation max_retries (attempt + 1)
        { result := rest.result,
          trace := .invoke attempt (.error e) :: .sleep delay :: rest.trace }
termination_by max_retries - attempt
decreasing_by omega

/-- The retry executor `retry_with_backoff` (client.rs lines 34-113): the
attempt counter starts at 0 and the budget defaults to
`DEFAULT_MAX_RETRY_COUNT` when the caller passes `None`. -/
def retry_with_backoff {T : Type} (operation_name : String)
    (max_retry_count : Option Nat)
    (execute_operation : Nat → Except ApiRetryableError T) : RetryRun T :=
  retryLoop operation_name execute_operation
    (max_retry_count.getD DEFAULT_MAX_RETRY_COUNT) 0

/-- Whether a trace event is an invocation of the operation closure. -/
def RetryEvent.isInvoke {T : Type} : RetryEvent T → Bool
  | .invoke _ _ => true
  | .sleep _ => false

/-- The duration of a trace event when it is a backoff sleep. -/
def RetryEvent.sleepMillis {T : Type} : RetryEvent T → Option Nat
  | .invoke _ _ => none
  | .sleep d => some d

/-- Number of invocations of the operation closure recorded in a run. -/
def RetryRun.invocations {T : Type} (r : RetryRun T) : Nat :=
  (r.trace.filter RetryEvent.isInvoke).length

/-- The backoff sleeps of a run, in order, in milliseconds. -/
def RetryRun.sleeps {T : Type} (r : RetryRun T) : List Nat :=
  r.trace.filterMap RetryEvent.sleepMillis

/-- Total backoff slept during a run, in milliseconds. -/
def RetryRun.totalSleep {T : Type} (r : RetryRun T) : Nat :=
  r.sleeps.sum

/-- The trace segment one failed-and-retried attempt contributes: the
invocation, then the backoff sleep of `100 * 2^i` milliseconds. -/
def attemptBlock {T : Type} (op : Nat → Except ApiRetryableError T) (i : Nat) :
    List (RetryEvent T) :=
  [.invoke i (op i), .sleep (100 * 2 ^ i)]

/-- Iteration at a success: the loop returns the value with a single
invocation and nothing else. -/
theorem retryLoop_ok {T : Type} (name : String)
    (op : Nat → Except ApiRetryableError T) (limit j : Nat) (v : T)
    (h : op j = .ok v) :
    retryLoop name op limit j = { result := .ok v, trace := [.invoke j (.ok v)] } := by
  rw [retryLoop.eq_def, h]

/-- Iteration at a non-retryable failure: the loop returns the terminal
message at once, with a single invocation and no sleep. -/
theorem retryLoop_nonRetryable {T : Type} (name : String)
    (op : Nat → Except ApiRetryableError T) (limit j : Nat) (msg : String)
    (h : op j = .error (.NonRetryable msg)) :
    retryLoop name op limit j =
      { result := .error ("Operation " ++ name ++ " failed: " ++ msg),
        trace := [.invoke j (.error (.NonRetryable msg))] } := by
  rw [retryLoop.eq_def, h]
  rfl

/-- Iteration at a transient failure with the budget exhausted
(`attempt >= max_retries`): the loop returns the terminal message carrying
the attempt count `attempt + 1`, with no further sleep. -/
theorem retryLoop_exhaust {T : Type} (name : String)
    (op : Nat → Except ApiRetryableError T) (limit : Nat) (e : ApiRetryableError)
    (h : op limit = .error e) (htr : e.isTransient = true) :
    retryLoop name op limit limit =
      { result := .error ("Operation " ++ name ++ " failed after " ++
          toString (limit + 1) ++ " attempts: " ++ displayError e),
        trace := [.invoke limit (.error e)] } := by
  rw [retryLoop.eq_def, h]
  cases e with
  | NonRetryable m => simp [ApiRetryableError.isTransient] at htr
  | RateLimit => simp
  | Retryable m => simp

/-- Transient failures on the attempts `a, a+1, ..., j-1` prepend one
`attemptBlock` per attempt to the run that continues from attempt `j`. -/
theorem retryLoop_transient_prefix {T : Type} (name : String)
    (op : Nat → Except ApiRetryableError T) (limit : Nat) :
    ∀ (n a : Nat), a + n ≤ limit →
    (∀ i, a ≤ i → i < a + n → ∃ e, op i = .error e ∧ e.isTransient = true) →
    retryLoop name op limit a =
      { result := (retryLoop name op limit (a + n)).result,
        trace := (List.range' a n).flatMap (attemptBlock op) ++
          (retryLoop name op limit (a + n)).trace } := by
  intro n
  induction n with
  | zero =>
    intro a _ _
    simp
  | succ m ih =>
    intro a hle htr
    obtain ⟨e, hopa, htra⟩ := htr a (Nat.le_refl a) (by omega)
    have hlt : ¬ a ≥ limit := by omega
    have hidx : a + (m + 1) = (a + 1) + m := by omega
    rw [hidx, retryLoop.eq_def, hopa]
    cases e with
    | NonRetryable m2 => simp [ApiRetryableError.isTransient] at htra
    | RateLimit =>
      rw [List.range'_succ]
      simp only [dif_neg hlt, List.flatMap_cons]
      rw [ih (a + 1) (by omega) (fun i h1 h2 => htr i (by omega) (by omega))]
      simp [attemptBlock, hopa]
    | Retryable m2 =>
      rw [List.range'_succ]
      simp only [dif_neg hlt, List.flatMap_cons]
      rw [ih (a + 1) (by omega) (fun i h1 h2 => htr i (by omega) (by omega))]
      simp [attemptBlock, hopa]

/-- Each `attemptBlock` contributes exactly one invocation to a trace. -/
theorem length_filter_isInvoke_flatMap {T : Type}
    (op : Nat → Except ApiRetryableError T) :
    ∀ (n a : Nat),
    (((List.range' a n).flatMap (attemptBlock op)).filter RetryEvent.isInvoke).length = n := by
  intro n
  induction n with
  | zero => intro a; simp
  | succ m ih =>
    intro a
    rw [List.range'_succ]
    simp [attemptBlock, RetryEvent.isInvoke, ih (a + 1)]

/-- Each `attemptBlock` contributes exactly its backoff sleep to a trace. -/
theorem filterMap_sleepMillis_flatMap {T : Type}
    (op : Nat → Except ApiRetryableError T) :
    ∀ (n a : Nat),
    ((List.range' a n).flatMap (attemptBlock op)).filterMap RetryEvent.sleepMillis =
      (List.range' a n).map fun i => 100 * 2 ^ i := by
  intro n
  induction n with
  | zero => intro a; simp
  | succ m ih =>
    intro a
    rw [List.range'_succ]
    simp [attemptBlock, RetryEvent.sleepMillis, ih (a + 1)]

/-- C1: for an operation closure that fails with a transient error
(`Retryable` or `RateLimit`) on every invocation, the executor with budget
`limit` (the caller's value, or `DEFAULT_MAX_RETRY_COUNT = 15` when the
caller passes `None`) invokes the closure exactly `limit + 1` times and
returns a terminal error whose message carries the operation name and the
attempt count `limit + 1`. -/
theorem retry_always_transient_exhausts_budget {T : Type} (name : String)
    (mrc : Option Nat) (op : Nat → Except ApiRetryableError T)
    (hop : ∀ i, ∃ e, op i = .error e ∧ e.isTransient = true) :
    (retry_with_backoff name mrc op).invocations = mrc.getD DEFAULT_MAX_RETRY_COUNT + 1 ∧
    ∃ e, op (mrc.getD DEFAULT_MAX_RETRY_COUNT) = .error e ∧
      (retry_with_backoff name mrc op).result =
        .error ("Operation " ++ name ++ " failed after " ++
          toString (mrc.getD DEFAULT_MAX_RETRY_COUNT + 1) ++ " attempts: " ++
          displayError e) := by
  set limit := mrc.getD DEFAULT_MAX_RETRY_COUNT with hlimit
  obtain ⟨e, he, htr⟩ := hop limit
  have hrun : retry_with_backoff name mrc op =
      { result := (retryLoop name op limit (0 + limit)).result,
        trace := (List.range' 0 limit).flatMap (attemptBlock op) ++
          (retryLoop name op limit (0 + limit)).trace } := by
    rw [retry_with_backoff, ← hlimit]
    exact retryLoop_transient_prefix name op limit limit 0 (by omega)
      (fun i h1 h2 => hop i)
  rw [Nat.zero_add, retryLoop_exhaust name op limit e he htr] at hrun
  constructor
  · rw [hrun]
    simp [RetryRun.invocations, List.filter_append,
      length_filter_isInvoke_flatMap op limit 0, RetryEvent.isInvoke]
  · exact ⟨e, he, by rw [hrun]⟩

/-- C1 witness: with budget 2 and a closure that always hits the rate limit,
the executor performs 3 invocations and reports them in its terminal error. -/
theorem retry_always_transient_exhausts_budget_witness :
    (retry_with_backoff "create_milestone" (some 2)
      (fun _ => (Except.error ApiRetryableError.RateLimit : Except ApiRetryableError Unit))).invocations = 3 ∧
    ∃ e, (fun _ => (Except.error ApiRetryableError.RateLimit : Except ApiRetryableError Unit)) 2 = .error e ∧
      (retry_with_backoff "create_milestone" (some 2)
        (fun _ => (Except.error ApiRetryableError.RateLimit : Except ApiRetryableError Unit))).result =
        .error ("Operation " ++ "create_milestone" ++ " failed after " ++
          toString (2 + 1) ++ " attempts: " ++ displayError e) :=
  retry_always_transient_exhausts_budget "create_milestone" (some 2)
    (fun _ => .error .RateLimit) (fun _ => ⟨.RateLimit, rfl, rfl⟩)

/-- C10: when the closure fails with a transient error on every invocation,
the run's trace is `limit` blocks of invocation-then-sleep followed by a
final invocation with nothing after it: the budget-exhausting invocation is
followed by no backoff sleep, every sleep precedes a subsequent invocation,
and a run of `limit + 1` invocations performs exactly `limit` sleeps. -/
theorem retry_exhaustion_no_trailing_sleep {T : Type} (name : String)
    (mrc : Option Nat) (op : Nat → Except ApiRetryableError T)
    (hop : ∀ i, ∃ e, op i = .error e ∧ e.isTransient = true) :
    (retry_with_backoff name mrc op).trace =
      (List.range (mrc.getD DEFAULT_MAX_RETRY_COUNT)).flatMap (attemptBlock op) ++
        [RetryEvent.invoke (mrc.getD DEFAULT_MAX_RETRY_COUNT)
          (op (mrc.getD DEFAULT_MAX_RETRY_COUNT))] ∧
    (retry_with_backoff name mrc op).sleeps =
      (List.range (mrc.getD DEFAULT_MAX_RETRY_COUNT)).map (fun i => 100 * 2 ^ i) ∧
    (retry_with_backoff name mrc op).sleeps.length = mrc.getD DEFAULT_MAX_RETRY_COUNT := by
  set limit := mrc.getD DEFAULT_MAX_RETRY_COUNT with hlimit
  obtain ⟨e, he, htr⟩ := hop limit
  have hrun : retry_with_backoff name mrc op =
      { result := (retryLoop name op limit (0 + limit)).result,
        trace := (List.range' 0 limit).flatMap (attemptBlock op) ++
          (retryLoop name op limit (0 + limit)).trace } := by
    rw [retry_with_backoff, ← hlimit]
    exact retryLoop_transient_prefix name op limit limit 0 (by omega)
      (fun i h1 h2 => hop i)
  rw [Nat.zero_add, retryLoop_exhaust name op limit e he htr] at hrun
  refine ⟨?_, ?_, ?_⟩
  · rw [hrun, List.range_eq_range', he]
  · rw [hrun]
    simp [RetryRun.sleeps, List.filterMap_append, List.range_eq_range',
      filterMap_sleepMillis_flatMap op limit 0, RetryEvent.sleepMillis]
  · rw [hrun]
    simp [RetryRun.sleeps, List.filterMap_append,
      filterMap_sleepMillis_flatMap op limit 0, RetryEvent.sleepMillis]

/-- C10 witness: with budget 2 and an always-`Retryable` closure, the trace
is invoke, sleep 100, invoke, sleep 200, invoke — ending on an invocation. -/
theorem retry_exhaustion_no_trailing_sleep_witness :
    (retry_with_backoff "update_milestone" (some 2)
      (fun _ => (Except.error (ApiRetryableError.Retryable "503") :
        Except ApiRetryableError Unit))).trace =
      (List.range 2).flatMap
        (attemptBlock (fun _ => (Except.error (ApiRetryableError.Retryable "503") :
          Except ApiRetryableError Unit))) ++
        [RetryEvent.invoke 2 ((fun _ => (Except.error (ApiRetryableError.Retryable "503") :
          Except ApiRetryableError Unit)) 2)] ∧
    (retry_with_backoff "update_milestone" (some 2)
      (fun _ => (Except.error (ApiRetryableError.Retryable "503") :
        Except ApiRetryableError Unit))).sleeps =
      (List.range 2).map (fun i => 100 * 2 ^ i) ∧
    (retry_with_backoff "update_milestone" (some 2)
      (fun _ => (Except.error (ApiRetryableError.Retryable "503") :
        Except ApiRetryableError Unit))).sleeps.length = 2 :=
  retry_exhaustion_no_trailing_sleep "update_milestone" (some 2)
    (fun _ => .error (.Retryable "503")) (fun _ => ⟨.Retryable "503", rfl, rfl⟩)

/-- C2: the first invocation that returns `NonRetryable(msg)` — here attempt
`j`, reached after `j` transient failures — is the last invocation the
executor performs: whatever budget remains, the run stops at `j + 1`
invocations, its trace ends on that invocation (no backoff sleep follows and
no further invocation happens), and the terminal error is
`Operation <name> failed: <msg>`, carrying the operation name and the
original message.  With `j = 0` this is the always-`NonRetryable` case:
exactly one invocation. -/
theorem retry_nonretryable_short_circuits {T : Type} (name : String)
    (mrc : Option Nat) (op : Nat → Except ApiRetryableError T) (j : Nat)
    (msg : String)
    (hj : j ≤ mrc.getD DEFAULT_MAX_RETRY_COUNT)
    (hbefore : ∀ i, i < j → ∃ e, op i = .error e ∧ e.isTransient = true)
    (hop : op j = .error (.NonRetryable msg)) :
    (retry_with_backoff name mrc op).invocations = j + 1 ∧
    (retry_with_backoff name mrc op).result =
      .error ("Operation " ++ name ++ " failed: " ++ msg) ∧
    (retry_with_backoff name mrc op).trace =
      (List.range j).flatMap (attemptBlock op) ++
        [RetryEvent.invoke j (.error (.NonRetryable msg))] := by
  set limit := mrc.getD DEFAULT_MAX_RETRY_COUNT with hlimit
  have hrun : retry_with_backoff name mrc op =
      { result := (retryLoop name op limit (0 + j)).result,
        trace := (List.range' 0 j).flatMap (attemptBlock op) ++
          (retryLoop name op limit (0 + j)).trace } := by
    rw [retry_with_backoff, ← hlimit]
    exact retryLoop_transient_prefix name op limit j 0 (by omega)
      (fun i h1 h2 => hbefore i (by omega))
  rw [Nat.zero_add, retryLoop_nonRetryable name op limit j msg hop] at hrun
  refine ⟨?_, ?_, ?_⟩
  · rw [hrun]
    simp [RetryRun.invocations, List.filter_append,
      length_filter_isInvoke_flatMap op j 0, RetryEvent.isInvoke]
  · rw [hrun]
  · rw [hrun, List.range_eq_range']

/-- C2 witness: a closure that answers `NonRetryable` at once is invoked
exactly once, with no sleep before or after, whatever the default budget
would have allowed. -/
theorem retry_nonretryable_short_circuits_witness :
    (retry_with_backoff "create_label" none
      (fun _ => (Except.error (ApiRetryableError.NonRetryable "GitHub API error 404: Not Found") :
        Except ApiRetryableError Unit))).invocations = 0 + 1 ∧
    (retry_with_backoff "create_label" none
      (fun _ => (Except.error (ApiRetryableError.NonRetryable "GitHub API error 404: Not Found") :
        Except ApiRetryableError Unit))).result =
      .error ("Operation " ++ "create_label" ++ " failed: " ++ "GitHub API error 404: Not Found") ∧
    (retry_with_backoff "create_label" none
      (fun _ => (Except.error (ApiRetryableError.NonRetryable "GitHub API error 404: Not Found") :
        Except ApiRetryableError Unit))).trace =
      (List.range 0).flatMap
        (attemptBlock (fun _ =>
          (Except.error (ApiRetryableError.NonRetryable "GitHub API error 404: Not Found") :
            Except ApiRetryableError Unit))) ++
        [RetryEvent.invoke 0 (.error (.NonRetryable "GitHub API error 404: Not Found"))] :=
  retry_nonretryable_short_circuits "create_label" none
    (fun _ => .error (.NonRetryable "GitHub API error 404: Not Found")) 0
    "GitHub API error 404: Not Found" (by omega)
    (fun i hi => absurd hi (Nat.not_lt_zero i)) rfl

/-- C3: if the closure returns `Retryable` on the first `k` invocations
(`k ≤ limit`) and `Ok(v)` on the next, the executor performs exactly `k + 1`
invocations, returns `Ok(v)`, and the total backoff it sleeps is
`Σ_{i ∈ 0..k} 100 * 2^i` milliseconds (base delay 100 ms doubling per
attempt); `k = 0` gives one invocation and zero delay. -/
theorem retry_success_after_k_transient {T : Type} (name : String)
    (mrc : Option Nat) (op : Nat → Except ApiRetryableError T) (k : Nat) (v : T)
    (hk : k ≤ mrc.getD DEFAULT_MAX_RETRY_COUNT)
    (hbefore : ∀ i, i < k → ∃ m, op i = .error (.Retryable m))
    (hok : op k = .ok v) :
    (retry_with_backoff name mrc op).result = .ok v ∧
    (retry_with_backoff name mrc op).invocations = k + 1 ∧
    (retry_with_backoff name mrc op).totalSleep =
      ((List.range k).map fun i => 100 * 2 ^ i).sum := by
  set limit := mrc.getD DEFAULT_MAX_RETRY_COUNT with hlimit
  have hrun : retry_with_backoff name mrc op =
      { result := (retryLoop name op limit (0 + k)).result,
        trace := (List.range' 0 k).flatMap (attemptBlock op) ++
          (retryLoop name op limit (0 + k)).trace } := by
    rw [retry_with_backoff, ← hlimit]
    refine retryLoop_transient_prefix name op limit k 0 (by omega)
      (fun i h1 h2 => ?_)
    obtain ⟨m, hm⟩ := hbefore i (by omega)
    exact ⟨.Retryable m, hm, rfl⟩
  rw [Nat.zero_add, retryLoop_ok name op limit k v hok] at hrun
  refine ⟨?_, ?_, ?_⟩
  · rw [hrun]
  · rw [hrun]
    simp [RetryRun.invocations, List.filter_append,
      length_filter_isInvoke_flatMap op k 0, RetryEvent.isInvoke]
  · rw [hrun, List.range_eq_range']
    simp [RetryRun.totalSleep, RetryRun.sleeps, List.filterMap_append,
      filterMap_sleepMillis_flatMap op k 0, RetryEvent.sleepMillis]

/-- C3 witness: two `Retryable("network blip")` failures then success give 3
invocations, the success value, and 100 + 200 ms of total backoff. -/
theorem retry_success_after_k_transient_witness :
    (retry_with_backoff "update_milestone" (some 3)
      (fun i => if i < 2 then .error (.Retryable "network blip") else (.ok 42 : Except ApiRetryableError Nat))).result = .ok 42 ∧
    (retry_with_backoff "update_milestone" (some 3)
      (fun i => if i < 2 then .error (.Retryable "network blip") else (.ok 42 : Except ApiRetryableError Nat))).invocations = 2 + 1 ∧
    (retry_with_backoff "update_milestone" (some 3)
      (fun i => if i < 2 then .error (.Retryable "network blip") else (.ok 42 : Except ApiRetryableError Nat))).totalSleep =
      ((List.range 2).map fun i => 100 * 2 ^ i).sum :=
  retry_success_after_k_transient "update_milestone" (some 3)
    (fun i => if i < 2 then .error (.Retryable "network blip") else .ok 42) 2 42
    (by decide)
    (fun i hi => ⟨"network blip", by simp [hi]⟩)
    (by rfl)

/-- An HTTP response as the raw-HTTP adapter observes it: the status code and
the body text (`response.status()` and `response.text()`, the latter already
defaulted to `"Unknown error"` when unreadable). -/
structure HttpResponse where
  status : Nat
  body : String
deriving DecidableEq, Repr

/-- reqwest `StatusCode::is_success()`: 200 through 299. -/
def statusIsSuccess (status : Nat) : Bool :=
  decide (200 ≤ status ∧ status ≤ 299)

/-- reqwest `StatusCode::is_server_error()`: 500 through 599. -/
def statusIsServerError (status : Nat) : Bool :=
  decide (500 ≤ status ∧ status ≤ 599)

/-- Rendering of a status code inside the adapter's error messages.  The Rust
code formats reqwest's `StatusCode` with `Display`, which prints the numeric
code followed by its canonical reason phrase; the embedding keeps the numeric
code (what the claims inspect) and abstracts the reason phrase away. -/
def statusDisplay (status : Nat) : String :=
  toString status

/-- The response-classification block the six raw-HTTP operations of
client_repository.rs share verbatim (lines 114-139, 225-248, 352-377,
488-513, 609-634, 702-726): a transport-level failure before any status is
observed → `Retryable("HTTP request failed: <e>")`; a non-success status with
`error_msg = "GitHub API error <status>: <body>"` → `Retryable(error_msg)`
when 5xx, `RateLimit` when 429, `NonRetryable(error_msg)` otherwise; a
success status → the response. -/
def classifyRawHttp (sendResult : Except String HttpResponse) :
    Except ApiRetryableError HttpResponse :=
  match sendResult with
  | .error e => .error (.Retryable ("HTTP request failed: " ++ e))
  | .ok response =>
    if !statusIsSuccess response.status then
      let error_msg := "GitHub API error " ++ statusDisplay response.status ++
        ": " ++ response.body
      if statusIsServerError response.status then .error (.Retryable error_msg)
      else if response.status == 429 then .error .RateLimit
      else .error (.NonRetryable error_msg)
    else .ok response

/-- The six operations of client_repository.rs that go through the raw-HTTP
adapter instead of the typed SDK client. -/
inductive RawHttpOp where
  | create_milestone
  | update_milestone
  | delete_milestone
  | create_label
  | update_label
  | delete_label
deriving DecidableEq, Repr

/-- A raw-HTTP request: the verb and the fully constructed URL. -/
structure RawHttpRequest where
  method : String
  url : String
deriving DecidableEq, Repr

/-- The request each operation issues (client_repository.rs lines 106/115,
213/225, 338/353, 473/489, 586/610, 693/703).  `arg` is the sub-resource
fragment interpolated into the URL: the rendered milestone number for the
milestone update/delete, the (old) label name for the label update/delete,
and unused for the two creations, whose URLs name only the collection. -/
def rawHttpRequestOf (op : RawHttpOp) (owner repo arg : String) : RawHttpRequest :=
  match op with
  | .create_milestone =>
    { method := "POST",
      url := "https://api.github.com/repos/" ++ owner ++ "/" ++ repo ++ "/milestones" }
  | .update_milestone =>
    { method := "PATCH",
      url := "https://api.github.com/repos/" ++ owner ++ "/" ++ repo ++ "/milestones/" ++ arg }
  | .delete_milestone =>
    { method := "DELETE",
      url := "https://api.github.com/repos/" ++ owner ++ "/" ++ repo ++ "/milestones/" ++ arg }
  | .create_label =>
    { method := "POST",
      url := "https://api.github.com/repos/" ++ owner ++ "/" ++ repo ++ "/labels" }
  | .update_label =>
    { method := "PATCH",
      url := "https://api.github.com/repos/" ++ owner ++ "/" ++ repo ++ "/labels/" ++ arg }
  | .delete_label =>
    { method := "DELETE",
      url := "https://api.github.com/repos/" ++ owner ++ "/" ++ repo ++ "/labels/" ++ arg }

/-- The HTTP exchange common to the six `*_impl` functions of
client_repository.rs, up to the classification of the observed response:
each first requires the token (`self.token.as_ref().ok_or_else(...)`, lines
110, 220, 348, 484, 605, 698) — failing with
`NonRetryable("GitHub token not configured")` before any request is built or
sent — and then sends its request and classifies the outcome with the shared
block embedded as `classifyRawHttp`.  The create/update operations afterwards
parse the success body (a failure there is a separate
`NonRetryable("Failed to parse ...")`, not a classification of the HTTP
response); the delete operations return the success as is.  Next to the
classification the embedding returns the list of requests actually issued. -/
def runRawHttpOp (op : RawHttpOp) (owner repo arg : String) (token : Option String)
    (send : RawHttpRequest → Except String HttpResponse) :
    Except ApiRetryableError HttpResponse × List RawHttpRequest :=
  match token with
  | none => (.error (.NonRetryable "GitHub token not configured"), [])
  | some _ =>
    (classifyRawHttp (send (rawHttpRequestOf op owner repo arg)),
      [rawHttpRequestOf op owner repo arg])

/-- C4: every raw-HTTP operation classifies the observed outcome by the one
shared rule: 2xx → success, 429 → `RateLimit`, 5xx → `Retryable` with status
and body in the message, any other non-2xx → `NonRetryable` with status and
body, and a transport-level failure before any status → `Retryable`. -/
theorem rawHttp_classification (status : Nat) (body e : String) :
    (200 ≤ status → status ≤ 299 →
      classifyRawHttp (.ok ⟨status, body⟩) = .ok ⟨status, body⟩) ∧
    (classifyRawHttp (.ok ⟨429, body⟩) = .error .RateLimit) ∧
    (500 ≤ status → status ≤ 599 →
      classifyRawHttp (.ok ⟨status, body⟩) =
        .error (.Retryable ("GitHub API error " ++ statusDisplay status ++ ": " ++ body))) ∧
    (¬ (200 ≤ status ∧ status ≤ 299) → ¬ (500 ≤ status ∧ status ≤ 599) →
      status ≠ 429 →
      classifyRawHttp (.ok ⟨status, body⟩) =
        .error (.NonRetryable ("GitHub API error " ++ statusDisplay status ++ ": " ++ body))) ∧
    (classifyRawHttp (.error e) = .error (.Retryable ("HTTP request failed: " ++ e))) ∧
    (∀ (op : RawHttpOp) (owner repo arg token : String)
      (send : RawHttpRequest → Except String HttpResponse),
      runRawHttpOp op owner repo arg (some token) send =
        (classifyRawHttp (send (rawHttpRequestOf op owner repo arg)),
          [rawHttpRequestOf op owner repo arg])) := by
  refine ⟨?_, ?_, ?_, ?_, rfl, fun op owner repo arg token send => rfl⟩
  · intro h1 h2
    have hs : statusIsSuccess status = true := by
      simp [statusIsSuccess]
      omega
    simp [classifyRawHttp, hs]
  · rfl
  · intro h1 h2
    have hs : statusIsSuccess status = false := by
      simp [statusIsSuccess]
      omega
    have hse : statusIsServerError status = true := by
      simp [statusIsServerError]
      omega
    simp [classifyRawHttp, hs, hse]
  · intro h1 h2 h3
    have hs : statusIsSuccess status = false := by
      simp [statusIsSuccess]
      omega
    have hse : statusIsServerError status = false := by
      simp [statusIsServerError]
      omega
    have h429 : (status == 429) = false := by
      simp [h3]
    simp [classifyRawHttp, hs, hse, h429]

/-- C4 witness: the boundary statuses of the spec — 200 success, 429 rate
limit, 503 retryable, 404 non-retryable — plus a transport failure, at a
concrete body. -/
theorem rawHttp_classification_witness :
    (classifyRawHttp (.ok ⟨200, "ok"⟩) = .ok ⟨200, "ok"⟩) ∧
    (classifyRawHttp (.ok ⟨429, "slow down"⟩) = .error .RateLimit) ∧
    (classifyRawHttp (.ok ⟨503, "unavailable"⟩) =
      .error (.Retryable ("GitHub API error " ++ statusDisplay 503 ++ ": " ++ "unavailable"))) ∧
    (classifyRawHttp (.ok ⟨404, "Not Found"⟩) =
      .error (.NonRetryable ("GitHub API error " ++ statusDisplay 404 ++ ": " ++ "Not Found"))) ∧
    (classifyRawHttp (.error "connection refused") =
      .error (.Retryable ("HTTP request failed: " ++ "connection refused"))) :=
  ⟨(rawHttp_classification 200 "ok" "x").1 (by omega) (by omega),
    (rawHttp_classification 429 "slow down" "x").2.1,
    (rawHttp_classification 503 "unavailable" "x").2.2.1 (by omega) (by omega),
    (rawHttp_classification 404 "Not Found" "x").2.2.2.1 (by omega) (by omega) (by omega),
    (rawHttp_classification 0 "y" "connection refused").2.2.2.2.1⟩

/-- C9: with no token configured, every raw-HTTP operation fails at once with
`NonRetryable("GitHub token not configured")` and issues no request. -/
theorem rawHttp_missing_token_short_circuits (op : RawHttpOp)
    (owner repo arg : String)
    (send : RawHttpRequest → Except String HttpResponse) :
    runRawHttpOp op owner repo arg none send =
      (.error (.NonRetryable "GitHub token not configured"), []) :=
  rfl

/-- A JSON value, as the GraphQL call sites see the deserialized response
envelope (`serde_json::Value`). -/
inductive Json where
  | null
  | bool (b : Bool)
  | num (n : Int)
  | str (s : String)
  | arr (elems : List Json)
  | obj (fields : List (String × Json))

/-- serde_json `Value::get(key)`: the field of an object, `None` on a missing
key or a non-object — note a field holding JSON `null` still counts as
present. -/
def Json.getField : Json → String → Option Json
  | .obj fields, key => fields.lookup key
  | _, _ => none

/-- serde_json `Value::as_array()`. -/
def Json.asArr : Json → Option (List Json)
  | .arr elems => some elems
  | _ => none

/-- serde_json `Value::as_str()`. -/
def Json.asStr : Json → Option String
  | .str s => some s
  | _ => none

/-- The error-message extraction the GraphQL call sites share verbatim
(client_issue.rs lines 976-982 and 1090-1096, client_project.rs lines
186-192, 498-504, 572-578):
`response.get("errors").and_then(as_array).and_then(first)
.and_then(get("message")).and_then(as_str).unwrap_or("Unknown GraphQL error")`. -/
def firstGraphQLErrorMessage (response : Json) : String :=
  ((((response.getField "errors").bind Json.asArr).bind List.head?).bind
    fun err => (err.getField "message").bind Json.asStr).getD "Unknown GraphQL error"

/-- The success test of the GraphQL mutation call sites
(client_issue.rs lines 973 and 1087, client_project.rs line 183):
`response.get("data").is_some() && response.get("errors").is_none()`. -/
def graphQLMutationSucceeded (response : Json) : Bool :=
  (response.getField "data").isSome && (response.getField "errors").isNone

/-- The response handling shared by `delete_issue_impl`,
`remove_issue_milestone_impl` and `update_project_item_field_value_impl`: a
response passing the success test returns `Ok(())`; any other response fails
with `NonRetryable` carrying the operation's context string followed by the
first error's message. -/
def handleGraphQLMutationResponse (context : String) (response : Json) :
    Except ApiRetryableError Unit :=
  if graphQLMutationSucceeded response then .ok ()
  else .error (.NonRetryable (context ++ firstGraphQLErrorMessage response))

/-- The message context of `delete_issue_impl` (client_issue.rs line 1099):
`format!("Failed to delete issue {}/{}/{}: {}", owner, repo, number, _)`. -/
def delete_issue_context (owner repo : String) (number : Nat) : String :=
  "Failed to delete issue " ++ owner ++ "/" ++ repo ++ "/" ++ toString number ++ ": "

/-- Response handling of `delete_issue_impl` (client_issue.rs lines
1086-1103). -/
def delete_issue_handleResponse (owner repo : String) (number : Nat)
    (response : Json) : Except ApiRetryableError Unit :=
  handleGraphQLMutationResponse (delete_issue_context owner repo number) response

/-- The message context of `remove_issue_milestone_impl` (client_issue.rs
line 985). -/
def remove_issue_milestone_context (owner repo : String) (number : Nat) : String :=
  "Failed to remove milestone from issue " ++ owner ++ "/" ++ repo ++ "/" ++
    toString number ++ ": "

/-- Response handling of `remove_issue_milestone_impl` (client_issue.rs lines
972-989). -/
def remove_issue_milestone_handleResponse (owner repo : String) (number : Nat)
    (response : Json) : Except ApiRetryableError Unit :=
  handleGraphQLMutationResponse (remove_issue_milestone_context owner repo number)
    response

/-- The message context of `update_project_item_field_value_impl`
(client_project.rs line 195). -/
def update_project_item_field_value_context : String :=
  "Failed to update project item field value: "

/-- Response handling of `update_project_item_field_value_impl`
(client_project.rs lines 182-198). -/
def update_project_item_field_value_handleResponse (response : Json) :
    Except ApiRetryableError Unit :=
  handleGraphQLMutationResponse update_project_item_field_value_context response

/-- C5 counterexample: a response carrying both a `data` field and a
non-empty `errors` array is NOT treated as a success — the data-presence rule
the claim states does not hold; the code also requires the absence of
`errors`, and classifies this response `NonRetryable` with the first error's
message. -/
theorem graphql_data_with_errors_is_not_success :
    delete_issue_handleResponse "octo" "repo" 7
      (Json.obj [("data", Json.obj [("deleteIssue", Json.null)]),
        ("errors", Json.arr [Json.obj [("message", Json.str "partial failure")]])]) =
      .error (.NonRetryable
        ("Failed to delete issue octo/repo/7: " ++ "partial failure")) ∧
    delete_issue_handleResponse "octo" "repo" 7
      (Json.obj [("data", Json.obj [("deleteIssue", Json.null)]),
        ("errors", Json.arr [Json.obj [("message", Json.str "partial failure")]])]) ≠
      .ok () :=
  ⟨rfl, fun h => Except.noConfusion h⟩

/-- C5 amended: a GraphQL mutation response is a success exactly when `data`
is present AND `errors` is absent; every other response — no data, or errors
present even next to data — yields `NonRetryable` carrying the operation's
context and the first error's message, and when the top-level `errors` array
is non-empty with a string `message` on its first entry, that very message is
the one surfaced. -/
theorem graphql_mutation_response_classification (context : String)
    (response : Json) :
    (graphQLMutationSucceeded response = true ↔
      (response.getField "data").isSome = true ∧
        response.getField "errors" = none) ∧
    (handleGraphQLMutationResponse context response = .ok () ↔
      graphQLMutationSucceeded response = true) ∧
    (graphQLMutationSucceeded response = false →
      handleGraphQLMutationResponse context response =
        .error (.NonRetryable (context ++ firstGraphQLErrorMessage response))) ∧
    (∀ (first : Json) (rest : List Json) (m : String),
      response.getField "errors" = some (.arr (first :: rest)) →
      first.getField "message" = some (.str m) →
      firstGraphQLErrorMessage response = m) := by
  refine ⟨?_, ?_, ?_, ?_⟩
  · simp [graphQLMutationSucceeded, Option.isNone_iff_eq_none]
  · constructor
    · intro h
      by_contra hn
      rw [handleGraphQLMutationResponse, if_neg (by simp [hn])] at h
      exact Except.noConfusion h
    · intro h
      rw [handleGraphQLMutationResponse, if_pos (by simp [h])]
  · intro h
    rw [handleGraphQLMutationResponse, if_neg (by simp [h])]
  · intro first rest m herr hmsg
    rw [firstGraphQLErrorMessage, herr]
    simp [Json.asArr, hmsg, Json.asStr]

/-- C5 amended witness: the success case at a concrete data-only envelope,
the failure case at a concrete errors-only envelope whose first error's
message is surfaced. -/
theorem graphql_mutation_response_classification_witness :
    (handleGraphQLMutationResponse "ctx: "
      (Json.obj [("data", Json.obj [("x", Json.null)])]) = .ok () ↔
      graphQLMutationSucceeded (Json.obj [("data", Json.obj [("x", Json.null)])]) = true) ∧
    (graphQLMutationSucceeded (Json.obj [("errors", Json.arr [Json.obj [("message", Json.str "X")]])]) = false →
      handleGraphQLMutationResponse "ctx: "
        (Json.obj [("errors", Json.arr [Json.obj [("message", Json.str "X")]])]) =
        .error (.NonRetryable ("ctx: " ++ firstGraphQLErrorMessage
          (Json.obj [("errors", Json.arr [Json.obj [("message", Json.str "X")]])])))) ∧
    firstGraphQLErrorMessage
      (Json.obj [("errors", Json.arr [Json.obj [("message", Json.str "X")]])]) = "X" :=
  ⟨(graphql_mutation_response_classification "ctx: "
      (Json.obj [("data", Json.obj [("x", Json.null)])])).2.1,
    (graphql_mutation_response_classification "ctx: "
      (Json.obj [("errors", Json.arr [Json.obj [("message", Json.str "X")]])])).2.2.1,
    (graphql_mutation_response_classification "ctx: "
      (Json.obj [("errors", Json.arr [Json.obj [("message", Json.str "X")]])])).2.2.2
      (Json.obj [("message", Json.str "X")]) [] "X" rfl rfl⟩

/-- C6 counterexample: a GraphQL-level error whose message text plainly
indicates rate limiting is still classified `NonRetryable` — the handling has
no rate-limit text inspection and never produces `RateLimit`. -/
theorem graphql_rate_limit_text_is_not_ratelimit :
    update_project_item_field_value_handleResponse
      (Json.obj [("errors", Json.arr
        [Json.obj [("message", Json.str "API rate limit exceeded")]])]) =
      .error (.NonRetryable ("Failed to update project item field value: " ++
        "API rate limit exceeded")) ∧
    update_project_item_field_value_handleResponse
      (Json.obj [("errors", Json.arr
        [Json.obj [("message", Json.str "API rate limit exceeded")]])]) ≠
      .error .RateLimit :=
  ⟨rfl, fun h => ApiRetryableError.noConfusion (Except.error.inj h)⟩

/-- C6 amended: a GraphQL mutation response is either a success or a
`NonRetryable` error surfacing the first error's message; the classification
never produces `RateLimit` or `Retryable`, whatever the error's message text
says. -/
theorem graphql_error_always_nonretryable (context : String) (response : Json) :
    (handleGraphQLMutationResponse context response = .ok () ∨
      handleGraphQLMutationResponse context response =
        .error (.NonRetryable (context ++ firstGraphQLErrorMessage response))) ∧
    handleGraphQLMutationResponse context response ≠ .error .RateLimit ∧
    (∀ m, handleGraphQLMutationResponse context response ≠ .error (.Retryable m)) := by
  rw [handleGraphQLMutationResponse]
  by_cases h : graphQLMutationSucceeded response = true
  · rw [if_pos h]
    exact ⟨Or.inl rfl, fun hc => Except.noConfusion hc,
      fun m hc => Except.noConfusion hc⟩
  · rw [if_neg h]
    exact ⟨Or.inr rfl,
      fun hc => ApiRetryableError.noConfusion (Except.error.inj hc),
      fun m hc => ApiRetryableError.noConfusion (Except.error.inj hc)⟩

/-- The public operations of `GitHubClient` that reach the remote service,
one constructor per `pub async fn` of client_issue.rs, client_pull_request.rs,
client_repository.rs and client_project.rs (the constructor accessors
`GitHubClient::new` and `octocrab` perform no remote call and are omitted). -/
inductive PublicOperation where
  | get_issue
  | create_issue
  | add_issue_comment
  | edit_issue_comment
  | delete_issue_comment
  | edit_issue_title
  | edit_issue_body
  | edit_issue_assignees
  | update_issue_state
  | update_issue
  | add_labels_to_issue
  | set_issue_milestone
  | remove_issue_milestone
  | delete_issue
  | create_pull_request
  | get_pull_request
  | add_pull_request_comment
  | edit_pull_request_comment
  | delete_pull_request_comment
  | close_pull_request
  | add_pull_request_assignees
  | remove_pull_request_assignees
  | edit_pull_request_assignees
  | edit_pull_request_title
  | edit_pull_request_body
  | add_pull_request_labels
  | remove_pull_request_labels
  | edit_pull_request_labels
  | add_pull_request_milestone
  | remove_pull_request_milestone
  | edit_pull_request_milestone
  | create_milestone
  | delete_milestone
  | update_milestone
  | create_label
  | update_label
  | delete_label
  | update_project_item_field_value
  | get_project_node_id
  | update_project_item_text_field
  | update_project_item_number_field
  | update_project_item_date_field
  | update_project_item_single_select_field
  | add_issue_to_project
  | add_pull_request_to_project
deriving DecidableEq, Repr

/-- How the body of a public operation reaches the remote service: it wraps
its closure in `retry_with_backoff` itself, it only calls another public
operation, or it performs the remote call directly with no executor. -/
inductive RetryDispatch where
  | executor
  | delegates (target : PublicOperation)
  | direct
deriving DecidableEq, Repr

/-- The dispatch each public operation uses, transcribed from its body: every
operation of client_issue.rs, client_pull_request.rs and client_repository.rs
wraps its `*_impl` in `retry_with_backoff` (the `retry_with_backoff(
operation_name, None, ...)` call directly under each `pub async fn`);
in client_project.rs, `update_project_item_field_value`,
`add_issue_to_project` and `add_pull_request_to_project` do the same, the
four `update_project_item_*_field` helpers only build a `ProjectFieldValue`
and call `update_project_item_field_value` (lines 282-364), and
`get_project_node_id` (lines 202-268) posts its GraphQL query with
`self.client.graphql(...).await?` directly — no retry executor, no
`ApiRetryableError` classification. -/
def dispatchOf : PublicOperation → RetryDispatch
  | .get_issue => .executor
  | .create_issue => .executor
  | .add_issue_comment => .executor
  | .edit_issue_comment => .executor
  | .delete_issue_comment => .executor
  | .edit_issue_title => .executor
  | .edit_issue_body => .executor
  | .edit_issue_assignees => .executor
  | .update_issue_state => .executor
  | .update_issue => .executor
  | .add_labels_to_issue => .executor
  | .set_issue_milestone => .executor
  | .remove_issue_milestone => .executor
  | .delete_issue => .executor
  | .create_pull_request => .executor
  | .get_pull_request => .executor
  | .add_pull_request_comment => .executor
  | .edit_pull_request_comment => .executor
  | .delete_pull_request_comment => .executor
  | .close_pull_request => .executor
  | .add_pull_request_assignees => .executor
  | .remove_pull_request_assignees => .executor
  | .edit_pull_request_assignees => .executor
  | .edit_pull_request_title => .executor
  | .edit_pull_request_body => .executor
  | .add_pull_request_labels => .executor
  | .remove_pull_request_labels => .executor
  | .edit_pull_request_labels => .executor
  | .add_pull_request_milestone => .executor
  | .remove_pull_request_milestone => .executor
  | .edit_pull_request_milestone => .executor
  | .create_milestone => .executor
  | .delete_milestone => .executor
  | .update_milestone => .executor
  | .create_label => .executor
  | .update_label => .executor
  | .delete_label => .executor
  | .update_project_item_field_value => .executor
  | .get_project_node_id => .direct
  | .update_project_item_text_field => .delegates .update_project_item_field_value
  | .update_project_item_number_field => .delegates .update_project_item_field_value
  | .update_project_item_date_field => .delegates .update_project_item_field_value
  | .update_project_item_single_select_field => .delegates .update_project_item_field_value
  | .add_issue_to_project => .executor
  | .add_pull_request_to_project => .executor

/-- Whether an operation's remote calls are funneled through the retry
executor, directly or through the one operation it delegates to (delegation
in the source is one level deep). -/
def funneledThroughRetryExecutor (op : PublicOperation) : Bool :=
  match dispatchOf op with
  | .executor => true
  | .direct => false
  | .delegates target =>
    match dispatchOf target with
    | .executor => true
    | _ => false

/-- C7 counterexample: `get_project_node_id` is a public client operation
that performs a remote GraphQL call without going through
`retry_with_backoff` — its failures are neither classified into the taxonomy
nor retried. -/
theorem get_project_node_id_bypasses_executor :
    funneledThroughRetryExecutor PublicOperation.get_project_node_id = false :=
  rfl

/-- C7 amended: every public client operation that performs a remote call,
with the one exception of `get_project_node_id`, funnels the call through
`retry_with_backoff`. -/
theorem public_operations_funnel_through_executor (op : PublicOperation)
    (h : op ≠ PublicOperation.get_project_node_id) :
    funneledThroughRetryExecutor op = true := by
  cases op <;> first
    | rfl
    | exact absurd rfl h

/-- C7 amended witness: `delete_issue` goes through the executor. -/
theorem public_operations_funnel_through_executor_witness :
    funneledThroughRetryExecutor PublicOperation.delete_issue = true :=
  public_operations_funnel_through_executor PublicOperation.delete_issue
    (by decide)

/-- The remote calls of one attempt of the composite `delete_issue`: the REST
fetch of the issue's node id, and the GraphQL deleteIssue mutation with the
node id it uses. -/
inductive CompositeEvent where
  | fetchNodeId (attempt : Nat)
  | mutateDeleteIssue (attempt : Nat) (node_id : String)
deriving DecidableEq, Repr

/-- One attempt of `delete_issue_impl` (client_issue.rs lines 1044-1103):
fetch the issue via REST to obtain its `node_id`
(`self.client.issues(owner, repo).get(number)`, modelled by the oracle
`fetchNode`, indexed by the attempt because a later attempt may observe a
changed remote), propagate a fetch failure without reaching the mutation, and
otherwise run the GraphQL `deleteIssue` mutation with exactly the node id
just fetched (oracle `runMutation`) and classify its envelope.  The event
list records the remote calls of the attempt in execution order. -/
def delete_issue_impl (owner repo : String) (number : Nat)
    (fetchNode : Nat → Except ApiRetryableError String)
    (runMutation : Nat → String → Except ApiRetryableError Json)
    (attempt : Nat) : Except ApiRetryableError Unit × List CompositeEvent :=
  match fetchNode attempt with
  | .error e => (.error e, [.fetchNodeId attempt])
  | .ok node_id =>
    match runMutation attempt node_id with
    | .error e =>
      (.error e, [.fetchNodeId attempt, .mutateDeleteIssue attempt node_id])
    | .ok response =>
      (delete_issue_handleResponse owner repo number response,
        [.fetchNodeId attempt, .mutateDeleteIssue attempt node_id])

/-- `delete_issue` (client_issue.rs lines 1031-1042): the whole
fetch-then-mutate sequence is the closure handed to the retry executor, under
the operation name "delete_issue" and the default budget. -/
def delete_issue (owner repo : String) (number : Nat)
    (fetchNode : Nat → Except ApiRetryableError String)
    (runMutation : Nat → String → Except ApiRetryableError Json) : RetryRun Unit :=
  retry_with_backoff "delete_issue" none
    (fun attempt => (delete_issue_impl owner repo number fetchNode runMutation attempt).1)

/-- C8: within one attempt of the composite `delete_issue`, the mutation
never precedes the fetch — the attempt's events are either the fetch alone
(the fetch failed, the mutation never started) or the fetch followed by the
mutation; and every mutation event of attempt `a` carries exactly the node id
the fetch of attempt `a` returned, so no attempt uses a node id obtained in a
previous attempt; and the closure the executor retries is the whole
composite, so each retry re-runs the fetch. -/
theorem composite_refetches_node_id_every_attempt (owner repo : String)
    (number : Nat) (fetchNode : Nat → Except ApiRetryableError String)
    (runMutation : Nat → String → Except ApiRetryableError Json)
    (attempt : Nat) :
    ((delete_issue_impl owner repo number fetchNode runMutation attempt).2 =
        [.fetchNodeId attempt] ∨
      ∃ nid, fetchNode attempt = .ok nid ∧
        (delete_issue_impl owner repo number fetchNode runMutation attempt).2 =
          [.fetchNodeId attempt, .mutateDeleteIssue attempt nid]) ∧
    (∀ (a : Nat) (nid : String),
      CompositeEvent.mutateDeleteIssue a nid ∈
        (delete_issue_impl owner repo number fetchNode runMutation attempt).2 →
      a = attempt ∧ fetchNode attempt = .ok nid) ∧
    delete_issue owner repo number fetchNode runMutation =
      retry_with_backoff "delete_issue" none
        (fun a => (delete_issue_impl owner repo number fetchNode runMutation a).1) := by
  refine ⟨?_, ?_, rfl⟩
  · rw [delete_issue_impl]
    cases hf : fetchNode attempt with
    | error e => exact Or.inl rfl
    | ok nid =>
      cases hm : runMutation attempt nid with
      | error e =>
        refine Or.inr ⟨nid, rfl, ?_⟩
        simp [hm]
      | ok response =>
        refine Or.inr ⟨nid, rfl, ?_⟩
        simp [hm]
  · rw [delete_issue_impl]
    cases hf : fetchNode attempt with
    | error e =>
      intro a nid2 hmem
      simp at hmem
    | ok nid =>
      intro a nid2 hmem
      cases hm : runMutation attempt nid with
      | error e =>
        simp [hm] at hmem
        exact ⟨hmem.1, by rw [hmem.2]⟩
      | ok response =>
        simp [hm] at hmem
        exact ⟨hmem.1, by rw [hmem.2]⟩

/-- C8 witness: with a fetch oracle returning a distinct node id per attempt,
the mutation event of attempt 3 carries exactly the node id fetched in
attempt 3. -/
theorem composite_refetches_node_id_every_attempt_witness :
    3 = 3 ∧ (fun a => (Except.ok ("node-" ++ toString a) :
      Except ApiRetryableError String)) 3 = Except.ok "node-3" :=
  (composite_refetches_node_id_every_attempt "octo" "repo" 1
    (fun a => .ok ("node-" ++ toString a))
    (fun _ _ => .error (.Retryable "mutation failed")) 3).2.1 3 "node-3"
    (by simp [delete_issue_impl]
        rfl)

end GithubEdit
